import Mathlib

/-!
Shallow embedding of the Coinsights resolution/attestation core.

Sources embedded:
* `backend/internal/services/resolution.go` — `ResolutionService`
  (issue registry, resolution engine) and `BlockchainService`
  (attestation gateway, verification).
* `backend/internal/models/complaint.go` — data model and
  `DefaultResolutionCriteria`.
* the `ResolutionAttestation` Solidity contract — on-ledger state,
  `recordResolution`, `verifyHash`, `getAttestation`.

Modelling conventions:
* Go `float64` values are modelled as exact rationals (`ℚ`); the
  constants involved (0.95, 0.85, …) are all exactly representable and
  no float rounding is relevant to the claims under study.
* Go `time.Time` is modelled as an integer count of nanoseconds
  (`Int`), matching `time.Duration`'s nanosecond resolution;
  `time.Now()` is passed in as an explicit `now` argument.
* Go maps (`map[string]*T`) are modelled as association lists with
  in-place overwrite on insert; pointer mutation becomes value update
  of the stored entry.
* `bytes32` hashes and Keccak256 digests are modelled as `Nat`
  (`0` is Solidity's zero value).  `keccak256` is treated as injective,
  so the contract's issue key `keccak256(abi.encodePacked(exchange,
  issueCategory))` is modelled by the packed concatenation
  `exchange ++ issueCategory` itself.
* `crypto/rand` IDs and the external ledger are passed in as explicit
  arguments (an id string, respectively a ledger oracle function).
-/

/-- Association-list lookup, the model of Go's `m[k]` read
(`none` models `ok == false`). -/
def mapLookup {α : Type} (m : List (String × α)) (k : String) : Option α :=
  match m.find? (fun p => p.1 == k) with
  | some p => some p.2
  | none => none

/-- Association-list insert, the model of Go's `m[k] = v`:
overwrites the binding in place, otherwise appends. -/
def mapInsert {α : Type} (m : List (String × α)) (k : String) (v : α) :
    List (String × α) :=
  match m with
  | [] => [(k, v)]
  | (k', v') :: rest =>
      if k' == k then (k, v) :: rest else (k', v') :: mapInsert rest k v

/-- `models.ResolutionEvidence` from `complaint.go`.  Timestamps are
nanosecond counts; floats are exact rationals. -/
structure ResolutionEvidence where
  complaintsBefore : Int
  complaintsAfter : Int
  percentageDecrease : ℚ
  sentimentShift : ℚ
  sampleComplaints : List String
  dataSources : List String
  measurementStart : Int
  measurementEnd : Int
  analysisMethodology : String
deriving DecidableEq, Repr

/-- `calculateConfidence` from `resolution.go` (lines 269–299),
translated branch for branch. -/
def calculateConfidence (evidence : ResolutionEvidence) : ℚ :=
  let confidence : ℚ :=
    if evidence.percentageDecrease ≥ 9/10 then 95/100
    else if evidence.percentageDecrease ≥ 7/10 then 85/100
    else if evidence.percentageDecrease ≥ 5/10 then 70/100
    else 50/100
  let confidence :=
    if evidence.sentimentShift > 2/10 then confidence + 5/100 else confidence
  let confidence :=
    if evidence.dataSources.length ≥ 3 then confidence + 3/100 else confidence
  if confidence > 1 then 1 else confidence

/-- The confidence rule table as the spec words it (§4.2): base from
percentage-decrease, additive bonuses, clamped to 1.0. -/
def confidenceSpec (evidence : ResolutionEvidence) : ℚ :=
  let base : ℚ :=
    if evidence.percentageDecrease ≥ 9/10 then 95/100
    else if evidence.percentageDecrease ≥ 7/10 then 85/100
    else if evidence.percentageDecrease ≥ 5/10 then 70/100
    else 50/100
  let sBonus : ℚ := if evidence.sentimentShift > 2/10 then 5/100 else 0
  let dBonus : ℚ := if evidence.dataSources.length ≥ 3 then 3/100 else 0
  min (base + sBonus + dBonus) 1

/-- `models.Attestation` from `complaint.go`.  Hex-encoded hashes are
modelled as `Nat` digests; the block timestamp is in seconds. -/
structure Attestation where
  id : Nat
  transactionHash : String
  blockNumber : Nat
  blockTimestamp : Int
  chainID : Int
  contractAddress : String
  evidenceHash : Nat
  previousHash : Nat
  attestor : String
  explorerURL : String
  verified : Bool
deriving DecidableEq, Repr

/-- `models.Resolution` from `complaint.go`. -/
structure Resolution where
  id : String
  exchange : String
  issueCategory : String
  summary : String
  evidence : ResolutionEvidence
  confidence : ℚ
  resolutionWindow : Int
  status : String
  createdAt : Int
  verifiedAt : Option Int
  attestation : Option Attestation
deriving DecidableEq, Repr

/-- `models.Issue` from `complaint.go`. -/
structure Issue where
  id : String
  exchange : String
  category : String
  title : String
  description : String
  firstDetected : Int
  lastUpdated : Int
  complaintCount : Int
  severity : String
  status : String
  resolution : Option Resolution
  attestation : Option Attestation
deriving DecidableEq, Repr

/-- `models.ResolutionCriteria` from `complaint.go`. -/
structure ResolutionCriteria where
  minPercentageDecrease : ℚ
  minConfidence : ℚ
  minWindowDays : Int
  requirePositiveSentiment : Bool
deriving DecidableEq, Repr

/-- `models.DefaultResolutionCriteria` from `complaint.go`
(lines 128–136). -/
def DefaultResolutionCriteria : ResolutionCriteria :=
  { minPercentageDecrease := 70/100
    minConfidence := 85/100
    minWindowDays := 7
    requirePositiveSentiment := false }

/-- The mutable state of `ResolutionService`: the two in-memory stores,
the criteria, and whether a blockchain service is configured
(`rs.blockchain != nil`). -/
structure ServiceState where
  resolutions : List (String × Resolution)
  issues : List (String × Issue)
  criteria : ResolutionCriteria
  blockchainConfigured : Bool
deriving DecidableEq, Repr

/-- `CreateIssue` from `resolution.go` (lines 38–54).  `now` models
`time.Now()` and `newId` the `generateID()` output.  The Go function's
return type is `(*models.Issue, error)`; it never returns a non-nil
error. -/
def CreateIssue (s : ServiceState) (issue : Issue) (now : Int)
    (newId : String) : Except String (Issue × ServiceState) :=
  let issue := if issue.id = "" then { issue with id := newId } else issue
  let issue := { issue with firstDetected := now, lastUpdated := now,
                            status := "active" }
  Except.ok (issue, { s with issues := mapInsert s.issues issue.id issue })

/-- `GetIssue` from `resolution.go` (lines 56–66). -/
def GetIssue (s : ServiceState) (id : String) : Except String Issue :=
  match mapLookup s.issues id with
  | some issue => Except.ok issue
  | none => Except.error ("issue not found: " ++ id)

/-- `UpdateIssue` from `resolution.go` (lines 82–108): merges only
positive/non-empty fields from `update`, always refreshes
`LastUpdated`. -/
def UpdateIssue (s : ServiceState) (id : String) (update : Issue)
    (now : Int) : Except String (Issue × ServiceState) :=
  match mapLookup s.issues id with
  | none => Except.error ("issue not found: " ++ id)
  | some issue =>
      let issue := if update.complaintCount > 0 then
        { issue with complaintCount := update.complaintCount } else issue
      let issue := if update.severity ≠ "" then
        { issue with severity := update.severity } else issue
      let issue := if update.status ≠ "" then
        { issue with status := update.status } else issue
      let issue := if update.description ≠ "" then
        { issue with description := update.description } else issue
      let issue := { issue with lastUpdated := now }
      Except.ok (issue, { s with issues := mapInsert s.issues id issue })

/-- Nanoseconds per day: the divisor behind
`int(end.Sub(start).Hours() / 24)`. -/
def nsPerDay : Int := 86400000000000

/-- `int(evidence.MeasurementEnd.Sub(evidence.MeasurementStart).Hours()
/ 24)` from `resolution.go` line 140: the duration in whole days,
truncated toward zero (Go's float-to-int conversion; `Int.tdiv` is
truncating division). -/
def durationDays (ns : Int) : Int := Int.tdiv ns nsPerDay

/-- `meetsResolutionCriteria` from `resolution.go` (lines 301–324). -/
def meetsResolutionCriteria (criteria : ResolutionCriteria)
    (resolution : Resolution) : Bool :=
  if resolution.evidence.percentageDecrease < criteria.minPercentageDecrease
    then false
  else if resolution.confidence < criteria.minConfidence then false
  else if resolution.resolutionWindow < criteria.minWindowDays then false
  else if criteria.requirePositiveSentiment
       && decide (resolution.evidence.sentimentShift ≤ 0) then false
  else true

/-- `CreateResolution` from `resolution.go` (lines 114–160).  Looks up
the issue, computes confidence and window, stores the resolution
(auto-verifying it when the criteria hold) and marks the issue
resolved.  No validation of the evidence is performed. -/
def CreateResolution (s : ServiceState) (issueID : String)
    (evidence : ResolutionEvidence) (summary : String) (now : Int)
    (newId : String) : Except String (Resolution × ServiceState) :=
  match mapLookup s.issues issueID with
  | none => Except.error ("issue not found: " ++ issueID)
  | some issue =>
      let confidence := calculateConfidence evidence
      let resolution : Resolution :=
        { id := newId
          exchange := issue.exchange
          issueCategory := issue.category
          summary := summary
          evidence := evidence
          confidence := confidence
          resolutionWindow :=
            durationDays (evidence.measurementEnd - evidence.measurementStart)
          status := "pending"
          createdAt := now
          verifiedAt := none
          attestation := none }
      let resolution :=
        if meetsResolutionCriteria s.criteria resolution then
          { resolution with status := "verified", verifiedAt := some now }
        else resolution
      let issue' := { issue with status := "resolved",
                                 resolution := some resolution,
                                 lastUpdated := now }
      Except.ok (resolution,
        { s with resolutions := mapInsert s.resolutions resolution.id resolution,
                 issues := mapInsert s.issues issueID issue' })

/-- The `for _, issue := range rs.issues` loop in `AttestResolution`
(lines 222–229): attach the attestation to the first issue whose
resolution has the given id and mark it verified, leaving the rest
unchanged. -/
def attachToIssues (issues : List (String × Issue)) (resolutionID : String)
    (att : Attestation) : List (String × Issue) :=
  match issues with
  | [] => []
  | (k, issue) :: rest =>
      match issue.resolution with
      | some r =>
          if r.id == resolutionID then
            (k, { issue with attestation := some att, status := "verified" })
              :: rest
          else (k, issue) :: attachToIssues rest resolutionID att
      | none => (k, issue) :: attachToIssues rest resolutionID att

/-- `AttestResolution` from `resolution.go` (lines 192–232).  The
external ledger (`rs.blockchain.RecordAttestation`) is the oracle
`ledger`; the returned `Nat` counts the ledger calls made (0 or 1). -/
def AttestResolution (ledger : Resolution → Except String Attestation)
    (s : ServiceState) (resolutionID : String) :
    Except String Attestation × ServiceState × Nat :=
  match mapLookup s.resolutions resolutionID with
  | none => (Except.error ("resolution not found: " ++ resolutionID), s, 0)
  | some resolution =>
      match resolution.attestation with
      | some att => (Except.ok att, s, 0)
      | none =>
          if s.blockchainConfigured = false then
            (Except.error "blockchain service not configured", s, 0)
          else
            match ledger resolution with
            | Except.error e =>
                (Except.error ("failed to record attestation: " ++ e), s, 1)
            | Except.ok attestation =>
                let resolution' := { resolution with
                  attestation := some attestation, status := "on_chain" }
                (Except.ok attestation,
                 { s with
                     resolutions :=
                       mapInsert s.resolutions resolutionID resolution',
                     issues := attachToIssues s.issues resolutionID attestation },
                 1)

/-- One `Attestation` struct of the `ResolutionAttestation` Solidity
contract.  `bytes32` values are `Nat` (zero value `0`). -/
structure ContractAttestation where
  evidenceHash : Nat
  previousHash : Nat
  timestamp : Nat
  blockNumber : Nat
  exchange : String
  issueCategory : String
  attestor : String
deriving DecidableEq, Repr

/-- The contract's storage: `attestations` (id `i` is element `i`, in
recording order, so `attestationCount` is the list length) and
`latestHashByIssue`. -/
structure ContractState where
  attestations : List ContractAttestation
  latestHashByIssue : List (String × Nat)
deriving DecidableEq, Repr

/-- The deployed contract's initial storage
(`attestationCount = 0`, empty mappings). -/
def initialContractState : ContractState := { attestations := [], latestHashByIssue := [] }

/-- A Solidity `mapping(bytes32 => bytes32)` read: absent keys give the
zero value. -/
def lookupHash (m : List (String × Nat)) (k : String) : Nat :=
  match mapLookup m k with
  | some h => h
  | none => 0

/-- The issue key `keccak256(abi.encodePacked(exchange, issueCategory))`,
modelled (with `keccak256` injective) as the packed concatenation of
the two strings.  Note distinct pairs can share a key, e.g.
`("ab", "c")` and `("a", "bc")`. -/
def issueKey (exchange issueCategory : String) : String :=
  exchange ++ issueCategory

/-- `recordResolution` from the contract (lines 109–146): read the
previous hash for the issue key, append the attestation, update the
latest-hash mapping, return the new attestation id. -/
def recordResolution (s : ContractState) (exchange issueCategory : String)
    (evidenceHash : Nat) (timestamp blockNumber : Nat) (sender : String) :
    ContractState × Nat :=
  let key := issueKey exchange issueCategory
  let previousHash := lookupHash s.latestHashByIssue key
  let attestationId := s.attestations.length
  let att : ContractAttestation :=
    { evidenceHash := evidenceHash
      previousHash := previousHash
      timestamp := timestamp
      blockNumber := blockNumber
      exchange := exchange
      issueCategory := issueCategory
      attestor := sender }
  ({ attestations := s.attestations ++ [att],
     latestHashByIssue := mapInsert s.latestHashByIssue key evidenceHash },
   attestationId)

/-- One `recordResolution` call's inputs (calldata plus block
environment). -/
structure RecordRequest where
  exchange : String
  issueCategory : String
  evidenceHash : Nat
  timestamp : Nat
  blockNumber : Nat
  sender : String
deriving DecidableEq, Repr

/-- Contract state reached by a sequence of `recordResolution`
transactions from the deployed state. -/
def runRecords (reqs : List RecordRequest) : ContractState :=
  reqs.foldl
    (fun s r =>
      (recordResolution s r.exchange r.issueCategory r.evidenceHash
        r.timestamp r.blockNumber r.sender).1)
    initialContractState

/-- The issue key of a stored attestation. -/
def attKey (a : ContractAttestation) : String :=
  issueKey a.exchange a.issueCategory

/-- Evidence hash of the most recent attestation in `l` whose issue key
is `k`, or the zero value `0` when there is none. -/
def lastHashForKey (l : List ContractAttestation) (k : String) : Nat :=
  match l.reverse.find? (fun a => attKey a == k) with
  | some a => a.evidenceHash
  | none => 0

/-- The loop body of the contract's `verifyHash` (lines 231–241):
scan ids upward from `i`, return the first attestation whose stored
evidence hash equals `h`. -/
def verifyHashAux (l : List ContractAttestation) (i : Nat) (h : Nat) :
    Bool × Nat :=
  match l with
  | [] => (false, 0)
  | a :: rest =>
      if a.evidenceHash == h then (true, i) else verifyHashAux rest (i + 1) h

/-- `verifyHash` from the contract: `(exists, attestationId)`.  A pure
view function — it takes the state and returns only the result. -/
def verifyHash (s : ContractState) (h : Nat) : Bool × Nat :=
  verifyHashAux s.attestations 0 h

/-- `getAttestation` from the contract (lines 203–223): requires
`attestationId < attestationCount`, else reverts (`none`). -/
def getAttestation (s : ContractState) (attestationId : Nat) :
    Option ContractAttestation :=
  s.attestations.get? attestationId

/-- `models.VerificationResponse` from `complaint.go`. -/
structure VerificationResponse where
  verified : Bool
  onChain : Bool
  attestation : Option Attestation
  hashMatch : Bool
  timestampValid : Bool
  message : String
deriving DecidableEq, Repr

/-- `GetAttestationByID` from `resolution.go` (lines 769–811): call the
contract's `getAttestation` and build a `models.Attestation` from its
outputs (transaction hash is left empty; `Verified` is set true). -/
def GetAttestationByID (s : ContractState) (chainID : Int)
    (contractAddress explorerURL : String) (attestationId : Nat) :
    Except String Attestation :=
  match getAttestation s attestationId with
  | none => Except.error "contract call failed"
  | some a =>
      Except.ok
        { id := attestationId
          transactionHash := ""
          blockNumber := a.blockNumber
          blockTimestamp := (a.timestamp : Int)
          chainID := chainID
          contractAddress := contractAddress
          evidenceHash := a.evidenceHash
          previousHash := a.previousHash
          attestor := a.attestor
          explorerURL := explorerURL
          verified := true }

/-- `VerifyAttestation` from `resolution.go` (lines 706–766): call the
contract's `verifyHash`; on a hit set `Verified`/`OnChain`/`HashMatch`
and, when fetching the full attestation succeeds, attach it and set
`TimestampValid = true`.  No comparison of the reported block timestamp
against the current time is made anywhere. -/
def VerifyAttestation (s : ContractState) (chainID : Int)
    (contractAddress explorerURL : String) (evidenceHash : Nat) :
    VerificationResponse :=
  let r := verifyHash s evidenceHash
  let response : VerificationResponse :=
    { verified := r.1, onChain := r.1, attestation := none,
      hashMatch := r.1, timestampValid := false, message := "" }
  if r.1 then
    let response := { response with
      message := "Hash verified on-chain. Attestation ID: " ++ toString r.2 }
    match GetAttestationByID s chainID contractAddress explorerURL r.2 with
    | Except.ok a =>
        { response with attestation := some a, timestampValid := true }
    | Except.error _ => response
  else
    { response with message := "Hash not found on-chain" }

/-- A tracked issue used as a concrete store entry. -/
def demoIssue : Issue :=
  { id := "i1"
    exchange := "coinbase"
    category := "withdrawal_delays"
    title := "Withdrawal delays"
    description := "d"
    firstDetected := 0
    lastUpdated := 0
    complaintCount := 100
    severity := "high"
    status := "active"
    resolution := none
    attestation := none }

/-- A service state holding `demoIssue` under the default criteria. -/
def demoState : ServiceState :=
  { resolutions := []
    issues := [("i1", demoIssue)]
    criteria := DefaultResolutionCriteria
    blockchainConfigured := true }

/-- Evidence violating both spec invariants: the measurement window is
reversed (start 10ns, end 0) and the before-count is negative. -/
def badEvidence : ResolutionEvidence :=
  { complaintsBefore := -1
    complaintsAfter := 5
    percentageDecrease := 1/2
    sentimentShift := 0
    sampleComplaints := []
    dataSources := ["youtube"]
    measurementStart := 10
    measurementEnd := 0
    analysisMethodology := "m" }

/-- The spec's §8 scenario 8 evidence: before 150, after 120,
percentage decrease 0.20, over a 10-day window. -/
def scenarioEvidence : ResolutionEvidence :=
  { complaintsBefore := 150
    complaintsAfter := 120
    percentageDecrease := 2/10
    sentimentShift := 0
    sampleComplaints := []
    dataSources := ["youtube"]
    measurementStart := 0
    measurementEnd := 864000000000000
    analysisMethodology := "m" }

/-- A concrete ledger receipt. -/
def demoAttestation : Attestation :=
  { id := 0
    transactionHash := "0xabc"
    blockNumber := 5
    blockTimestamp := 100
    chainID := 84532
    contractAddress := "0xc"
    evidenceHash := 7
    previousHash := 0
    attestor := "0xme"
    explorerURL := "u"
    verified := true }

/-- A resolution that has not been attested yet. -/
def pendingResolution : Resolution :=
  { id := "r1"
    exchange := "coinbase"
    issueCategory := "withdrawal_delays"
    summary := "s"
    evidence := scenarioEvidence
    confidence := 1/2
    resolutionWindow := 10
    status := "verified"
    createdAt := 0
    verifiedAt := some 0
    attestation := none }

/-- A service state holding `pendingResolution`. -/
def demoAttestState : ServiceState :=
  { resolutions := [("r1", pendingResolution)]
    issues := [("i1", { demoIssue with resolution := some pendingResolution })]
    criteria := DefaultResolutionCriteria
    blockchainConfigured := true }

/-- A ledger oracle whose write always succeeds with
`demoAttestation`. -/
def okLedger : Resolution → Except String Attestation :=
  fun _ => Except.ok demoAttestation

/-- A ledger oracle whose write always fails. -/
def failLedger : Resolution → Except String Attestation :=
  fun _ => Except.error "connection refused"

/-- Three `recordResolution` calls whose first and third share the pair
`("ab", "c")` while the second uses the distinct pair `("a", "bc")` —
whose packed concatenation collides with the first. -/
def collideReqs : List RecordRequest :=
  [ { exchange := "ab", issueCategory := "c", evidenceHash := 1,
      timestamp := 10, blockNumber := 1, sender := "0xme" },
    { exchange := "a", issueCategory := "bc", evidenceHash := 2,
      timestamp := 11, blockNumber := 2, sender := "0xme" },
    { exchange := "ab", issueCategory := "c", evidenceHash := 3,
      timestamp := 12, blockNumber := 3, sender := "0xme" } ]

/-- Three `recordResolution` calls: ids 0 and 2 are consecutive for the
key of `("ex", "cat")`, id 1 is an unrelated pair. -/
def chainReqs : List RecordRequest :=
  [ { exchange := "ex", issueCategory := "cat", evidenceHash := 5,
      timestamp := 1, blockNumber := 1, sender := "0xme" },
    { exchange := "other", issueCategory := "cat", evidenceHash := 6,
      timestamp := 2, blockNumber := 2, sender := "0xme" },
    { exchange := "ex", issueCategory := "cat", evidenceHash := 7,
      timestamp := 3, blockNumber := 3, sender := "0xme" } ]

/-- A ledger whose single attestation reports a block timestamp far in
the future (around year 5138). -/
def futureContractState : ContractState :=
  { attestations :=
      [ { evidenceHash := 77, previousHash := 0,
          timestamp := 99999999999, blockNumber := 1,
          exchange := "coinbase", issueCategory := "fees",
          attestor := "0xme" } ]
    latestHashByIssue := [("coinbasefees", 77)] }

/-- A ledger holding two attestations with the same evidence hash `5`
(ids 0 and 2) and one with hash `9`. -/
def dupContractState : ContractState :=
  { attestations :=
      [ { evidenceHash := 5, previousHash := 0, timestamp := 1,
          blockNumber := 1, exchange := "e", issueCategory := "c",
          attestor := "a" },
        { evidenceHash := 9, previousHash := 5, timestamp := 2,
          blockNumber := 2, exchange := "e", issueCategory := "c",
          attestor := "a" },
        { evidenceHash := 5, previousHash := 9, timestamp := 3,
          blockNumber := 3, exchange := "e", issueCategory := "c",
          attestor := "a" } ]
    latestHashByIssue := [("ec", 5)] }

/-- The returned value of a fallible service call, `none` on error. -/
def valueOf {α : Type} (x : Except String (α × ServiceState)) : Option α :=
  match x with
  | Except.ok p => some p.1
  | Except.error _ => none

/-- The post-state of a fallible service call, `none` on error. -/
def stateOf {α : Type} (x : Except String (α × ServiceState)) :
    Option ServiceState :=
  match x with
  | Except.ok p => some p.2
  | Except.error _ => none

/-- The latest-hash mapping agrees, on every key, with the evidence
hash of the most recent attestation recorded for that key. -/
def latestAgrees (s : ContractState) : Prop :=
  ∀ k, lookupHash s.latestHashByIssue k = lastHashForKey s.attestations k

/-- Chain-of-custody linkage: every stored attestation's
`previousHash` is the evidence hash of the latest earlier attestation
sharing its issue key, or `0` when it is the first for its key. -/
def chainLinked (l : List ContractAttestation) : Prop :=
  ∀ j a, l.get? j = some a →
    a.previousHash = lastHashForKey (l.take j) (attKey a)

/-! ## Helper lemmas -/

theorem mapLookup_mapInsert_self {α : Type} (m : List (String × α))
    (k : String) (v : α) : mapLookup (mapInsert m k v) k = some v := by
  induction m with
  | nil => simp [mapInsert, mapLookup, List.find?]
  | cons p rest ih =>
      obtain ⟨k', v'⟩ := p
      by_cases hk : k' = k
      · simp [mapInsert, hk, mapLookup, List.find?]
      · have hb : (k' == k) = false := by simp [hk]
        simp only [mapInsert, hb, if_false]
        simpa [mapLookup, List.find?, hb] using ih

theorem mapLookup_mapInsert_ne {α : Type} (m : List (String × α))
    (k k' : String) (v : α) (h : k' ≠ k) :
    mapLookup (mapInsert m k v) k' = mapLookup m k' := by
  have h' : k ≠ k' := Ne.symm h
  have hb : (k == k') = false := by simp [h']
  induction m with
  | nil => simp [mapInsert, mapLookup, List.find?, hb]
  | cons p rest ih =>
      obtain ⟨k₀, v₀⟩ := p
      by_cases hk : k₀ = k
      · have hb₀ : (k₀ == k') = false := by simp [hk, h']
        simp [mapInsert, hk, mapLookup, List.find?, hb, hb₀]
      · have hbk : (k₀ == k) = false := by simp [hk]
        by_cases hk' : k₀ = k'
        · have hbk' : (k₀ == k') = true := by simp [hk']
          simp [mapInsert, hbk, mapLookup, List.find?, hbk']
        · have hbk' : (k₀ == k') = false := by simp [hk']
          simp only [mapInsert, hbk, if_false]
          simpa [mapLookup, List.find?, hbk'] using ih

/-! ## C1 — confidence scorer -/

/-- C1: for every `ResolutionEvidence`, `calculateConfidence` computes
exactly the spec's rule table — base 0.95 / 0.85 / 0.70 / 0.50 by
percentage-decrease thresholds, +0.05 for sentiment shift > 0.20,
+0.03 for ≥ 3 data sources, clamped at 1.0 — and the result always
lies in `[0, 1]`. -/
theorem calculateConfidence_rule_table (e : ResolutionEvidence) :
    calculateConfidence e = confidenceSpec e ∧
      0 ≤ calculateConfidence e ∧ calculateConfidence e ≤ 1 := by
  unfold calculateConfidence confidenceSpec
  split_ifs <;> simp_all <;> norm_num [min_def]

/-! ## C2 — evidence validation in CreateResolution -/

/-- C2 (counterexample): `badEvidence` has a reversed measurement
window and a negative before-count, yet `CreateResolution` succeeds
and stores the resolution — no `InvalidEvidence` check exists. -/
theorem CreateResolution_no_validation_counterexample :
    badEvidence.measurementStart > badEvidence.measurementEnd ∧
      badEvidence.complaintsBefore < 0 ∧
      (valueOf (CreateResolution demoState "i1" badEvidence "sum" 5
        "r1")).isSome = true ∧
      (stateOf (CreateResolution demoState "i1" badEvidence "sum" 5 "r1")).bind
          (fun s' => mapLookup s'.resolutions "r1") =
        valueOf (CreateResolution demoState "i1" badEvidence "sum" 5 "r1") := by
  refine ⟨by decide, by decide, by rfl, ?_⟩
  with_unfolding_all rfl

/-- C2 (amended): `CreateResolution` performs no validation of the
evidence: whenever the issue id is present, it succeeds for every
evidence value (reversed windows and negative counts included),
stores the resolution under the fresh id and marks the issue
resolved. -/
theorem CreateResolution_accepts_any_evidence (s : ServiceState)
    (issueID : String) (e : ResolutionEvidence) (summary : String)
    (now : Int) (newId : String) (issue : Issue)
    (h : mapLookup s.issues issueID = some issue) :
    ∃ r s', CreateResolution s issueID e summary now newId =
        Except.ok (r, s') ∧
      r.evidence = e ∧
      mapLookup s'.resolutions newId = some r ∧
      mapLookup s'.issues issueID =
        some { issue with status := "resolved", resolution := some r,
                          lastUpdated := now } := by
  simp only [CreateResolution, h]
  refine ⟨_, _, rfl, ?_, ?_, ?_⟩
  · split <;> rfl
  · split <;> exact mapLookup_mapInsert_self ..
  · split <;> exact mapLookup_mapInsert_self ..

/-- C2 (witness): the amended claim at the concrete malformed
evidence. -/
theorem CreateResolution_accepts_any_evidence_witness :
    ∃ r s', CreateResolution demoState "i1" badEvidence "sum" 5 "r2" =
        Except.ok (r, s') ∧
      r.evidence = badEvidence ∧
      mapLookup s'.resolutions "r2" = some r ∧
      mapLookup s'.issues "i1" =
        some { demoIssue with status := "resolved", resolution := some r,
                              lastUpdated := 5 } :=
  CreateResolution_accepts_any_evidence demoState "i1" badEvidence "sum" 5
    "r2" demoIssue (by decide)

/-! ## C3 — auto-verification under the default criteria -/

theorem meets_default_iff (r : Resolution) :
    meetsResolutionCriteria DefaultResolutionCriteria r = true ↔
      (70/100 ≤ r.evidence.percentageDecrease ∧ 85/100 ≤ r.confidence ∧
        (7 : Int) ≤ r.resolutionWindow) := by
  unfold meetsResolutionCriteria DefaultResolutionCriteria
  split_ifs <;> simp_all [not_lt]

/-- C3: under the default criteria, the resolution created for an
existing issue from valid evidence is `"verified"` with
`verifiedAt = now` exactly when percentage-decrease ≥ 0.70, the
computed confidence is ≥ 0.85 and the truncated day count of the
measurement window is ≥ 7; otherwise it is `"pending"` with
`verifiedAt = none`. -/
theorem CreateResolution_default_verified_iff (s : ServiceState)
    (issueID : String) (e : ResolutionEvidence) (summary : String)
    (now : Int) (newId : String) (issue : Issue)
    (hc : s.criteria = DefaultResolutionCriteria)
    (h : mapLookup s.issues issueID = some issue)
    (_hv : e.measurementStart ≤ e.measurementEnd ∧
      0 ≤ e.complaintsBefore ∧ 0 ≤ e.complaintsAfter) :
    ∃ r s', CreateResolution s issueID e summary now newId =
        Except.ok (r, s') ∧
      ((r.status = "verified" ∧ r.verifiedAt = some now) ↔
        (70/100 ≤ e.percentageDecrease ∧ 85/100 ≤ calculateConfidence e ∧
          7 ≤ durationDays (e.measurementEnd - e.measurementStart))) ∧
      (¬ (70/100 ≤ e.percentageDecrease ∧ 85/100 ≤ calculateConfidence e ∧
          7 ≤ durationDays (e.measurementEnd - e.measurementStart)) →
        r.status = "pending" ∧ r.verifiedAt = none) := by
  simp only [CreateResolution, h, hc]
  refine ⟨_, _, rfl, ?_, ?_⟩
  · split
    next hm =>
      exact iff_of_true ⟨rfl, rfl⟩ ((meets_default_iff _).mp hm)
    next hm =>
      refine iff_of_false (fun hcontra => ?_) (fun hcond => ?_)
      · have hps : "pending" = "verified" := hcontra.1
        exact absurd hps (by decide)
      · exact hm ((meets_default_iff _).mpr hcond)
  · intro hncond
    split
    next hm => exact absurd ((meets_default_iff _).mp hm) hncond
    next hm => exact ⟨rfl, rfl⟩

/-- C3 (witness): the spec's §8 scenario 8 — before 150, after 120,
percentage decrease 0.20 over a 10-day window — stays `"pending"`. -/
theorem CreateResolution_default_verified_iff_witness :
    ∃ r s', CreateResolution demoState "i1" scenarioEvidence "sum" 5 "r1" =
        Except.ok (r, s') ∧
      ((r.status = "verified" ∧ r.verifiedAt = some 5) ↔
        (70/100 ≤ scenarioEvidence.percentageDecrease ∧
          85/100 ≤ calculateConfidence scenarioEvidence ∧
          7 ≤ durationDays (scenarioEvidence.measurementEnd -
            scenarioEvidence.measurementStart))) ∧
      (¬ (70/100 ≤ scenarioEvidence.percentageDecrease ∧
          85/100 ≤ calculateConfidence scenarioEvidence ∧
          7 ≤ durationDays (scenarioEvidence.measurementEnd -
            scenarioEvidence.measurementStart)) →
        r.status = "pending" ∧ r.verifiedAt = none) :=
  CreateResolution_default_verified_iff demoState "i1" scenarioEvidence
    "sum" 5 "r1" demoIssue rfl rfl (by decide)

/-! ## C8 — CreateIssue and duplicate ids -/

/-- C8 (counterexample): creating an issue whose explicit id `"i1"`
already exists in the store does not fail — it succeeds and overwrites
the stored issue (the stored entry is no longer `demoIssue`). -/
theorem CreateIssue_duplicate_overwrites_counterexample :
    mapLookup demoState.issues "i1" = some demoIssue ∧
      (valueOf (CreateIssue demoState
        { demoIssue with description := "different" } 5 "zz")).isSome = true ∧
      (stateOf (CreateIssue demoState
          { demoIssue with description := "different" } 5 "zz")).bind
        (fun s' => mapLookup s'.issues "i1") ≠ some demoIssue := by
  refine ⟨by decide, by rfl, ?_⟩
  intro hcontra
  have hsame : some { demoIssue with
                      description := "different",
                      firstDetected := 5, lastUpdated := 5,
                      status := "active" } =
      some demoIssue := by
    with_unfolding_all exact hcontra.symm.symm
  simp [demoIssue] at hsame

/-- C8 (amended): `CreateIssue` never returns an error.  It assigns
the fresh id when none is supplied, sets status `"active"` and both
timestamps to `now`, and stores the issue under its id — overwriting
any existing issue with the same explicit id rather than failing. -/
theorem CreateIssue_always_ok (s : ServiceState) (issue : Issue)
    (now : Int) (newId : String) :
    ∃ i' s', CreateIssue s issue now newId = Except.ok (i', s') ∧
      i'.status = "active" ∧ i'.firstDetected = now ∧
      i'.lastUpdated = now ∧
      i'.id = (if issue.id = "" then newId else issue.id) ∧
      mapLookup s'.issues i'.id = some i' ∧
      s'.resolutions = s.resolutions := by
  by_cases hid : issue.id = ""
  · simp only [CreateIssue, hid, if_true]
    exact ⟨_, _, rfl, rfl, rfl, rfl, rfl, mapLookup_mapInsert_self .., rfl⟩
  · simp only [CreateIssue, hid, if_false]
    exact ⟨_, _, rfl, rfl, rfl, rfl, rfl, mapLookup_mapInsert_self .., rfl⟩

/-! ## C9 — UpdateIssue and the complaint count -/

/-- C9 (counterexample): an update carrying the positive complaint
count 50 applied to an issue holding count 100 succeeds and lowers the
stored complaint count — the count is not monotonic non-decreasing. -/
theorem UpdateIssue_decreases_count_counterexample :
    demoIssue.complaintCount = 100 ∧
      (valueOf (UpdateIssue demoState "i1"
          { demoIssue with complaintCount := 50 } 5)).map
        Issue.complaintCount = some 50 := by
  refine ⟨by decide, ?_⟩
  with_unfolding_all rfl

/-- C9 (amended): on a successful update the stored complaint count is
overwritten by the update's count whenever that count is positive —
it may decrease — and is left unchanged otherwise; `lastUpdated` is
always refreshed to the call time. -/
theorem UpdateIssue_overwrites_count (s : ServiceState) (id : String)
    (update : Issue) (now : Int) (issue : Issue)
    (h : mapLookup s.issues id = some issue) :
    ∃ i' s', UpdateIssue s id update now = Except.ok (i', s') ∧
      i'.complaintCount = (if update.complaintCount > 0 then
        update.complaintCount else issue.complaintCount) ∧
      i'.lastUpdated = now ∧
      mapLookup s'.issues id = some i' := by
  simp only [UpdateIssue, h]
  refine ⟨_, _, rfl, ?_, ?_, ?_⟩
  · split_ifs <;> rfl
  · rfl
  · exact mapLookup_mapInsert_self ..

/-- C9 (witness): the amended claim at the concrete decreasing
update. -/
theorem UpdateIssue_overwrites_count_witness :
    ∃ i' s', UpdateIssue demoState "i1"
        { demoIssue with complaintCount := 50 } 5 = Except.ok (i', s') ∧
      i'.complaintCount = (if ({ demoIssue with complaintCount := 50
        } : Issue).complaintCount > 0 then
        ({ demoIssue with complaintCount := 50 } : Issue).complaintCount
        else demoIssue.complaintCount) ∧
      i'.lastUpdated = 5 ∧
      mapLookup s'.issues "i1" = some i' :=
  UpdateIssue_overwrites_count demoState "i1"
    { demoIssue with complaintCount := 50 } 5 demoIssue (by decide)

/-! ## C5 — idempotent attestation -/

/-- C5: attestation is idempotent.  A resolution that already carries
an attestation gets it returned unchanged with no ledger write and no
state change; and after a fresh successful attestation, a second
`AttestResolution` call returns the same attestation, performs no
further ledger write, and leaves the state unchanged — so two calls
make exactly one ledger write in total. -/
theorem AttestResolution_idempotent
    (ledger : Resolution → Except String Attestation) (s : ServiceState)
    (rid : String) (r : Resolution)
    (h : mapLookup s.resolutions rid = some r) :
    (∀ att, r.attestation = some att →
      AttestResolution ledger s rid = (Except.ok att, s, 0)) ∧
    (∀ att, r.attestation = none → s.blockchainConfigured = true →
      ledger r = Except.ok att →
      ∃ s₁, AttestResolution ledger s rid = (Except.ok att, s₁, 1) ∧
        AttestResolution ledger s₁ rid = (Except.ok att, s₁, 0)) := by
  constructor
  · intro att hatt
    simp [AttestResolution, h, hatt]
  · intro att hatt hbc hled
    refine ⟨{ s with
              resolutions := mapInsert s.resolutions rid
                { r with attestation := some att, status := "on_chain" },
              issues := attachToIssues s.issues rid att }, ?_, ?_⟩
    · simp [AttestResolution, h, hatt, hbc, hled]
    · have hlook : mapLookup
          (mapInsert s.resolutions rid
            { r with attestation := some att, status := "on_chain" }) rid =
          some { r with attestation := some att, status := "on_chain" } :=
        mapLookup_mapInsert_self ..
      simp [AttestResolution, h, hatt, hbc, hled, hlook]

/-- C5 (witness): attesting `pendingResolution` twice through the
always-succeeding ledger yields `demoAttestation` both times with one
ledger write, the second call changing nothing. -/
theorem AttestResolution_idempotent_witness :
    ∃ s₁, AttestResolution okLedger demoAttestState "r1" =
        (Except.ok demoAttestation, s₁, 1) ∧
      AttestResolution okLedger s₁ "r1" =
        (Except.ok demoAttestation, s₁, 0) :=
  (AttestResolution_idempotent okLedger demoAttestState "r1"
      pendingResolution rfl).2 demoAttestation rfl rfl rfl

/-! ## C6 — failed ledger writes change nothing -/

/-- C6: when the ledger write fails, `AttestResolution` surfaces the
error and returns the state unchanged — the resolution keeps its
status (never flipping to `"on_chain"`), no attestation is attached,
and no issue is modified. -/
theorem AttestResolution_ledger_failure
    (ledger : Resolution → Except String Attestation) (s : ServiceState)
    (rid : String) (r : Resolution) (e : String)
    (h : mapLookup s.resolutions rid = some r)
    (hatt : r.attestation = none)
    (hbc : s.blockchainConfigured = true)
    (hled : ledger r = Except.error e) :
    AttestResolution ledger s rid =
      (Except.error ("failed to record attestation: " ++ e), s, 1) := by
  simp [AttestResolution, h, hatt, hbc, hled]

/-- C6 (witness): the failing ledger at the concrete state — the
result state is literally `demoAttestState`, so the stored resolution
still has status `"verified"` and no attestation. -/
theorem AttestResolution_ledger_failure_witness :
    AttestResolution failLedger demoAttestState "r1" =
      (Except.error "failed to record attestation: connection refused",
        demoAttestState, 1) :=
  AttestResolution_ledger_failure failLedger demoAttestState "r1"
    pendingResolution "connection refused" rfl rfl rfl rfl

/-! ## C10 — verifyHash returns the earliest match -/

theorem verifyHashAux_of_no_match (l : List ContractAttestation)
    (i h : Nat) (hnone : ∀ k a, l.get? k = some a → a.evidenceHash ≠ h) :
    verifyHashAux l i h = (false, 0) := by
  induction l generalizing i with
  | nil => rfl
  | cons a rest ih =>
      have hhead : a.evidenceHash ≠ h := hnone 0 a rfl
      have hb : (a.evidenceHash == h) = false := by simp [hhead]
      simp only [verifyHashAux, hb, if_false]
      exact ih (i + 1) (fun k b hk => hnone (k + 1) b hk)

theorem verifyHashAux_of_least (l : List ContractAttestation)
    (i h j : Nat) (a : ContractAttestation) (hj : l.get? j = some a)
    (hha : a.evidenceHash = h)
    (hleast : ∀ k b, k < j → l.get? k = some b → b.evidenceHash ≠ h) :
    verifyHashAux l i h = (true, i + j) := by
  induction l generalizing i j with
  | nil => simp at hj
  | cons c rest ih =>
      cases j with
      | zero =>
          have hc : c = a := by simpa using hj
          subst hc
          simp [verifyHashAux, hha]
      | succ j' =>
          have hhead : c.evidenceHash ≠ h := hleast 0 c (Nat.succ_pos j') rfl
          have hb : (c.evidenceHash == h) = false := by simp [hhead]
          simp only [verifyHashAux, hb, if_false]
          have hrest : rest.get? j' = some a := by simpa using hj
          have := ih (i + 1) j' hrest
            (fun k b hk hkb => hleast (k + 1) b (Nat.succ_lt_succ hk) hkb)
          simpa [Nat.add_assoc, Nat.add_comm 1 j'] using this

/-- C10: `verifyHash` is a pure view of the contract state: it returns
`(false, 0)` when no stored attestation carries the hash, and
`(true, j)` for the smallest attestation id `j` whose stored evidence
hash equals the query — so duplicated hashes always resolve to the
earliest attestation. -/
theorem verifyHash_earliest (s : ContractState) (h : Nat) :
    ((∀ k a, s.attestations.get? k = some a → a.evidenceHash ≠ h) →
      verifyHash s h = (false, 0)) ∧
    (∀ j a, s.attestations.get? j = some a → a.evidenceHash = h →
      (∀ k b, k < j → s.attestations.get? k = some b →
        b.evidenceHash ≠ h) →
      verifyHash s h = (true, j)) := by
  constructor
  · intro hnone
    exact verifyHashAux_of_no_match s.attestations 0 h hnone
  · intro j a hj hha hleast
    simpa using verifyHashAux_of_least s.attestations 0 h j a hj hha hleast

/-- C10 (witness): in `dupContractState` the evidence hash `5` is
stored at ids 0 and 2; `verifyHash` resolves to id 0. -/
theorem verifyHash_earliest_witness :
    verifyHash dupContractState 5 = (true, 0) :=
  (verifyHash_earliest dupContractState 5).2 0
    { evidenceHash := 5, previousHash := 0, timestamp := 1,
      blockNumber := 1, exchange := "e", issueCategory := "c",
      attestor := "a" }
    rfl rfl (fun k _b hk _ => absurd hk (Nat.not_lt_zero k))

/-! ## C7 — timestamp validity flag -/

theorem verifyHashAux_true_get (l : List ContractAttestation)
    (i h j : Nat) (heq : verifyHashAux l i h = (true, j)) :
    i ≤ j ∧ ∃ a, l.get? (j - i) = some a ∧ a.evidenceHash = h := by
  induction l generalizing i with
  | nil => simp [verifyHashAux] at heq
  | cons c rest ih =>
      by_cases hc : c.evidenceHash = h
      · have hb : (c.evidenceHash == h) = true := by simp [hc]
        simp only [verifyHashAux, hb, if_true] at heq
        obtain ⟨-, hj⟩ := Prod.mk.injEq .. ▸ heq
        obtain rfl : i = j := by simpa using congrArg Prod.snd heq
        exact ⟨Nat.le_refl i, c, by simp, hc⟩
      · have hb : (c.evidenceHash == h) = false := by simp [hc]
        simp only [verifyHashAux, hb, if_false] at heq
        obtain ⟨hle, a, hget, hha⟩ := ih (i + 1) heq
        refine ⟨Nat.le_of_succ_le hle, a, ?_, hha⟩
        have hsub : j - i = (j - (i + 1)) + 1 := by omega
        rw [hsub]
        simpa using hget

/-- C7 (counterexample): verification of hash `77` against a ledger
whose attestation reports a block timestamp of 99999999999 seconds
(far in the future of any present call) returns
`timestampValid = true` — the code sets the flag whenever the record
fetch succeeds, with no clock comparison. -/
theorem VerifyAttestation_future_timestamp_counterexample :
    (VerifyAttestation futureContractState 84532 "0xc" "u"
      77).timestampValid = true ∧
    (VerifyAttestation futureContractState 84532 "0xc" "u"
        77).attestation.map Attestation.blockTimestamp =
      some 99999999999 := by
  constructor <;> rfl

/-- C7 (amended): the `TimestampValid` flag of `VerifyAttestation`
equals the bare on-chain existence bit of `verifyHash`: it is true
whenever the commitment is found (the record fetch then always
succeeds), irrespective of the reported block timestamp — no
not-in-the-future / not-implausibly-old check is performed. -/
theorem VerifyAttestation_timestampValid_eq_found (s : ContractState)
    (c : Int) (addr url : String) (h : Nat) :
    (VerifyAttestation s c addr url h).timestampValid =
      (verifyHash s h).1 := by
  cases hr : verifyHash s h with
  | mk b j =>
      cases b with
      | false => simp [VerifyAttestation, hr]
      | true =>
          obtain ⟨-, a, hget, -⟩ := verifyHashAux_true_get s.attestations
            0 h j (by simpa [verifyHash] using hr)
          rw [Nat.sub_zero, List.get?_eq_getElem?] at hget
          simp [VerifyAttestation, hr, GetAttestationByID, getAttestation,
            hget]

/-! ## C4 — chain-of-custody linkage -/

theorem lastHashForKey_append_single (l : List ContractAttestation)
    (a : ContractAttestation) (k : String) :
    lastHashForKey (l ++ [a]) k =
      if attKey a == k then a.evidenceHash else lastHashForKey l k := by
  unfold lastHashForKey
  rw [List.reverse_append]
  cases hc : attKey a == k <;> simp [List.find?, hc]

theorem latestAgrees_record (s : ContractState) (ex cat : String)
    (eh t b : Nat) (snd : String) (hs : latestAgrees s) :
    latestAgrees (recordResolution s ex cat eh t b snd).1 := by
  intro k
  by_cases hk : k = issueKey ex cat
  · subst hk
    simp only [recordResolution, lookupHash, mapLookup_mapInsert_self]
    rw [lastHashForKey_append_single]
    simp [attKey, issueKey]
  · have hne : issueKey ex cat ≠ k := fun hcontra => hk hcontra.symm
    simp only [recordResolution, lastHashForKey_append_single]
    have h1 : lookupHash
        (mapInsert s.latestHashByIssue (issueKey ex cat) eh) k =
        lookupHash s.latestHashByIssue k := by
      unfold lookupHash
      rw [mapLookup_mapInsert_ne _ _ _ _ (Ne.symm hne)]
    rw [h1]
    simp only [attKey, issueKey]
    have hb : ((ex ++ cat == k)) = false := beq_eq_false_iff_ne.mpr hne
    simpa [hb] using hs k

theorem chainLinked_record (s : ContractState) (ex cat : String)
    (eh t b : Nat) (snd : String) (hs : latestAgrees s)
    (hc : chainLinked s.attestations) :
    chainLinked (recordResolution s ex cat eh t b snd).1.attestations := by
  intro j a hj
  simp only [recordResolution] at hj ⊢
  rcases Nat.lt_trichotomy j s.attestations.length with hlt | heq | hgt
  · rw [List.get?_append hlt] at hj
    rw [List.take_append_of_le_length (Nat.le_of_lt hlt)]
    exact hc j a hj
  · subst heq
    rw [List.get?_concat_length] at hj
    obtain rfl : (⟨eh,
        lookupHash s.latestHashByIssue (issueKey ex cat), t, b, ex, cat,
        snd⟩ : ContractAttestation) = a := by
      simpa using hj
    rw [List.take_left]
    simpa [attKey, issueKey] using hs (issueKey ex cat)
  · rw [List.get?_eq_none.mpr (by simpa using hgt)] at hj
    exact Option.noConfusion hj

theorem runRecords_invariants (reqs : List RecordRequest) :
    latestAgrees (runRecords reqs) ∧
      chainLinked (runRecords reqs).attestations := by
  suffices hgen : ∀ (rs : List RecordRequest) (s : ContractState),
      latestAgrees s → chainLinked s.attestations →
      latestAgrees (rs.foldl (fun s r =>
          (recordResolution s r.exchange r.issueCategory r.evidenceHash
            r.timestamp r.blockNumber r.sender).1) s) ∧
        chainLinked (rs.foldl (fun s r =>
          (recordResolution s r.exchange r.issueCategory r.evidenceHash
            r.timestamp r.blockNumber r.sender).1) s).attestations by
    refine hgen reqs initialContractState ?_ ?_
    · intro k
      rfl
    · intro j a hj
      simp [initialContractState] at hj
  intro rs
  induction rs with
  | nil => exact fun s hl hc => ⟨hl, hc⟩
  | cons r rest ih =>
      intro s hl hc
      exact ih _ (latestAgrees_record s _ _ _ _ _ _ hl)
        (chainLinked_record s _ _ _ _ _ _ hl hc)

theorem lastHashForKey_take_of_none (l : List ContractAttestation)
    (k : String) (j : Nat)
    (hnone : ∀ m c, m < j → l.get? m = some c → attKey c ≠ k) :
    lastHashForKey (l.take j) k = 0 := by
  induction j with
  | zero => rfl
  | succ j' ih =>
      rw [List.take_succ]
      cases hget : l.get? j' with
      | none =>
          rw [← List.get?_eq_getElem?, hget]
          simpa using ih (fun m c hm => hnone m c (Nat.lt_succ_of_lt hm))
      | some c =>
          rw [← List.get?_eq_getElem?, hget]
          have hck : attKey c ≠ k := hnone j' c (Nat.lt_succ_self j') hget
          rw [show Option.toList (some c) = [c] from rfl,
            lastHashForKey_append_single,
            beq_eq_false_iff_ne.mpr hck]
          exact ih (fun m c hm => hnone m c (Nat.lt_succ_of_lt hm))

theorem lastHashForKey_take_of_between (l : List ContractAttestation)
    (k : String) (i j : Nat) (a : ContractAttestation) (hij : i < j)
    (hjlen : j ≤ l.length) (hai : l.get? i = some a) (hk : attKey a = k)
    (hbet : ∀ m c, i < m → m < j → l.get? m = some c → attKey c ≠ k) :
    lastHashForKey (l.take j) k = a.evidenceHash := by
  induction j, hij using Nat.le_induction with
  | base =>
      rw [List.take_succ, ← List.get?_eq_getElem?, hai,
        show Option.toList (some a) = [a] from rfl,
        lastHashForKey_append_single, hk]
      simp
  | succ j' hij' ih =>
      have hj'len : j' < l.length := hjlen
      have hc : l.get? j' = some (l.get ⟨j', hj'len⟩) :=
        List.get?_eq_get hj'len
      rw [List.take_succ, ← List.get?_eq_getElem?, hc,
        show Option.toList (some (l.get ⟨j', hj'len⟩)) =
          [l.get ⟨j', hj'len⟩] from rfl,
        lastHashForKey_append_single,
        beq_eq_false_iff_ne.mpr
          (hbet j' _ hij' (Nat.lt_succ_self j') hc)]
      exact ih (Nat.le_of_lt hj'len)
        (fun m d hm1 hm2 => hbet m d hm1 (Nat.lt_succ_of_lt hm2))

/-- C4 (counterexample): keyed by `keccak256(abi.encodePacked(exchange,
issueCategory))`, the pairs `("ab", "c")` and `("a", "bc")` collide.
Running `collideReqs`, attestations 0 and 2 are the consecutive
records for the pair `("ab", "c")`, yet attestation 2's previous-hash
is the colliding pair's hash 2, not attestation 0's evidence-hash 1. -/
theorem recordResolution_pair_linkage_counterexample :
    (runRecords collideReqs).attestations =
      [ { evidenceHash := 1, previousHash := 0, timestamp := 10,
          blockNumber := 1, exchange := "ab", issueCategory := "c",
          attestor := "0xme" },
        { evidenceHash := 2, previousHash := 1, timestamp := 11,
          blockNumber := 2, exchange := "a", issueCategory := "bc",
          attestor := "0xme" },
        { evidenceHash := 3, previousHash := 2, timestamp := 12,
          blockNumber := 3, exchange := "ab", issueCategory := "c",
          attestor := "0xme" } ] ∧
      ("a", "bc") ≠ ("ab", "c") ∧ (2 : Nat) ≠ 1 := by
  refine ⟨by decide, by decide, by decide⟩

/-- C4 (amended): in the contract, chain-of-custody holds per issue
key — the keccak hash of the packed concatenation
`exchange ++ issueCategory`, under which distinct pairs with equal
concatenations share one chain.  In every state reachable by
`recordResolution` calls: consecutive attestations with equal issue
keys link previous-hash to evidence-hash, the first attestation for a
key has previous-hash 0, and each `recordResolution` step leaves the
latest-hash entry of its key equal to the evidence-hash just
recorded. -/
theorem recordResolution_chain_custody (reqs : List RecordRequest) :
    (∀ i j a bb, i < j →
      (runRecords reqs).attestations.get? i = some a →
      (runRecords reqs).attestations.get? j = some bb →
      attKey a = attKey bb →
      (∀ m c, i < m → m < j →
        (runRecords reqs).attestations.get? m = some c →
        attKey c ≠ attKey bb) →
      bb.previousHash = a.evidenceHash) ∧
    (∀ j bb, (runRecords reqs).attestations.get? j = some bb →
      (∀ m c, m < j → (runRecords reqs).attestations.get? m = some c →
        attKey c ≠ attKey bb) →
      bb.previousHash = 0) ∧
    (∀ (s : ContractState) (ex cat : String) (eh t b : Nat)
      (snd : String),
      lookupHash
        (recordResolution s ex cat eh t b snd).1.latestHashByIssue
        (issueKey ex cat) = eh) := by
  obtain ⟨-, hchain⟩ := runRecords_invariants reqs
  refine ⟨?_, ?_, ?_⟩
  · intro i j a bb hij hi hj hkey hbet
    have hjlen : j ≤ (runRecords reqs).attestations.length := by
      by_contra hcon
      rw [List.get?_eq_none.mpr (Nat.le_of_not_lt
        (fun hlt => hcon (Nat.le_of_lt hlt)))] at hj
      exact Option.noConfusion hj
    rw [hchain j bb hj]
    exact lastHashForKey_take_of_between _ _ i j a hij hjlen hi hkey hbet
  · intro j bb hj hbet
    rw [hchain j bb hj]
    exact lastHashForKey_take_of_none _ _ j hbet
  · intro s ex cat eh t b snd
    simp only [recordResolution, lookupHash, mapLookup_mapInsert_self]

/-- C4 (witness): running `chainReqs`, attestations 0 and 2 are
consecutive for the key of `("ex", "cat")` (attestation 1 belongs to
another key), and attestation 2's previous-hash is attestation 0's
evidence-hash 5. -/
theorem recordResolution_chain_custody_witness :
    ({ evidenceHash := 7, previousHash := 5, timestamp := 3,
       blockNumber := 3, exchange := "ex", issueCategory := "cat",
       attestor := "0xme" } : ContractAttestation).previousHash =
      ({ evidenceHash := 5, previousHash := 0, timestamp := 1,
         blockNumber := 1, exchange := "ex", issueCategory := "cat",
         attestor := "0xme" } : ContractAttestation).evidenceHash :=
  (recordResolution_chain_custody chainReqs).1 0 2
    { evidenceHash := 5, previousHash := 0, timestamp := 1,
      blockNumber := 1, exchange := "ex", issueCategory := "cat",
      attestor := "0xme" }
    { evidenceHash := 7, previousHash := 5, timestamp := 3,
      blockNumber := 3, exchange := "ex", issueCategory := "cat",
      attestor := "0xme" }
    (by decide) (by decide) (by decide) (by decide)
    (by
      intro m c h1 h2 hg
      have hm1 : m = 1 := by omega
      subst hm1
      have hd : (runRecords chainReqs).attestations.get? 1 =
          some (⟨6, 0, 2, 2, "other", "cat", "0xme"⟩ :
            ContractAttestation) := by decide
      rw [hd] at hg
      injection hg with hg
      subst hg
      decide)
